import Mathlib

/-!
# TRSM-Intelligence: verification of the data-preparation pipeline and aggregators

Shallow embedding of the repository's Python sources:
* `database.py`    — `fetch_raw_tables` (per-table queries, per-table failure
  handling, `lru_cache` memoization), modelled with an explicit oracle for
  `pd.read_sql` and an explicit heap for Python object references;
* `data_preparation.py` — `prepare_full_data` (key casts, merges, pack
  aggregation, numeric coercion, Revenue/Cost/Profit, delivery metrics);
* `tabs/customers.py` — `compute_rfm` (groupby aggregation and `pd.qcut`
  quartile scoring).

Modelling conventions:
* a pandas cell is a `Value`: `null` models NaN/NaT/None, `str`, `num` (exact
  rationals stand in for floats: every arithmetic step of the pipeline is a
  single multiply/subtract, so exact arithmetic matches the float data flow),
  `date` (timestamps at day granularity: every temporal operation of the
  pipeline — `normalize`, subtraction in whole days, `≤` — is day-level);
* a `DataFrame` is a column-name list plus rows of (column, value) pairs; cell
  reads go through `getCell` (first binding wins, so column assignment is a
  prepend, mirroring the pandas overwrite);
* pandas exceptions (`KeyError` on a missing column, `qcut`'s
  "Bin edges must be unique") become `Except String`.
-/

inductive Value where
  | null : Value
  | str  : String → Value
  | num  : ℚ → Value
  | date : Int → Value
deriving DecidableEq, Inhabited

/-- One row: an association list from column name to cell value. -/
abbrev Row := List (String × Value)

/-- Cell read; a column absent from the row reads as null.  (The places where
pandas instead raises `KeyError` are guarded explicitly in the pipeline.) -/
def getCell (r : Row) (c : String) : Value := (List.lookup c r).getD Value.null

/-- Column assignment at row level: prepend, so later reads see the new value. -/
def setCell (r : Row) (c : String) (v : Value) : Row := (c, v) :: r

structure DataFrame where
  cols : List String
  rows : List Row
deriving DecidableEq, Inhabited

/-- `pd.DataFrame()` — no rows and no columns. -/
def emptyDF : DataFrame := ⟨[], []⟩

def DataFrame.hasCol (df : DataFrame) (c : String) : Bool := df.cols.contains c

/-- `df.empty` in pandas: the frame has no cells. -/
def DataFrame.isEmptyDF (df : DataFrame) : Bool := df.rows.isEmpty || df.cols.isEmpty

/-- `df[c] = <row-wise expression>`: adds or overwrites a column. -/
def DataFrame.assign (df : DataFrame) (c : String) (f : Row → Value) : DataFrame :=
  { cols := if df.cols.contains c then df.cols else df.cols ++ [c],
    rows := df.rows.map (fun r => setCell r c (f r)) }

/-- `str(x)` of a cell, as `astype(str)` applies it (`str(np.nan) = "nan"`).
Numbers print without a trailing `.0` when integral, timestamps print their
day index — the pipeline only ever compares these strings for equality. -/
def valStr : Value → String
  | .null => "nan"
  | .str s => s
  | .num q => if q.den = 1 then toString q.num else toString q
  | .date d => toString d

/-- `df[c] = df[c].astype(str)`; pandas raises `KeyError` when `c` is absent. -/
def DataFrame.castCol (df : DataFrame) (c : String) : Except String DataFrame :=
  if df.cols.contains c then
    .ok (df.assign c (fun r => .str (valStr (getCell r c))))
  else .error ("KeyError: " ++ c)

/-- `df.rename(columns={a: b})` (a missing source column is silently ignored,
as pandas does). -/
def DataFrame.renameCol (df : DataFrame) (a b : String) : DataFrame :=
  { cols := df.cols.map (fun c => if c = a then b else c),
    rows := df.rows.map (fun r => r.map (fun p => if p.1 = a then (b, p.2) else p)) }

/-- `left.merge(right, on=key, how=...)`.  Row order follows the left frame;
each left row is paired with every key-equal right row; under `how='left'` an
unmatched left row keeps null in the right frame's columns; under `how='inner'`
it is dropped.  `KeyError` when either side lacks the key column.  (The fetcher
schemas share no non-key column names, so pandas' `_x`/`_y` suffixing never
fires on this pipeline and is not modelled.) -/
def DataFrame.merge (l r : DataFrame) (key : String) (leftJoin : Bool) :
    Except String DataFrame :=
  if l.hasCol key && r.hasCol key then
    let rcols := r.cols.filter (fun c => c ≠ key)
    .ok { cols := l.cols ++ rcols,
          rows := l.rows.flatMap (fun lr =>
            let ms := r.rows.filter (fun rr => decide (getCell rr key = getCell lr key))
            if ms.isEmpty then
              if leftJoin then [rcols.foldl (fun acc c => setCell acc c .null) lr] else []
            else
              ms.map (fun rr => rcols.foldl (fun acc c => setCell acc c (getCell rr c)) lr)) }
  else .error ("KeyError: merge on " ++ key)

/-- Numeric sum of a list of cells, skipping non-numeric entries, as pandas'
NaN-skipping `sum` aggregation does (empty or all-NaN sums to 0). -/
def sumNums (vs : List Value) : ℚ := vs.foldl (fun a v => match v with
  | .num q => a + q
  | _ => a) 0

/-- NaN-skipping `max` over timestamp cells; all-NaN yields NaT (null). -/
def maxDateV (vs : List Value) : Value := vs.foldl (fun a v => match a, v with
  | .date m, .date d => .date (max m d)
  | .null, .date d => .date d
  | a, _ => a) .null

/-- `fillna(0)` on one cell. -/
def denull (v : Value) : Value := match v with
  | .null => .num 0
  | v => v

/-- `pd.to_numeric(·, errors='coerce')` followed by `.fillna(0.0)` on one cell:
numbers pass through, numeric strings parse (integer literals, the only
numeric-string shape this data carries), everything else coerces to NaN and
then fills to 0. -/
def toNum (v : Value) : Value := match v with
  | .num q => .num q
  | .str s => match s.toInt? with
    | some n => .num (n : ℚ)
    | none => .num 0
  | _ => .num 0

/-- `pd.to_datetime(·, errors='coerce')` at day granularity: timestamps pass
through, everything else coerces to NaT. -/
def toDatetime (v : Value) : Value := match v with
  | .date d => .date d
  | _ => .null

/-- The rational carried by a numeric cell (0 otherwise; the pipeline only
reads it from cells already forced numeric by `toNum`). -/
def Value.toQ (v : Value) : ℚ := match v with
  | .num q => q
  | _ => 0

/-! ## database.py — `fetch_raw_tables` -/

/-- The nine logical tables, in the iteration order of the `queries` dict. -/
def tableNames : List String :=
  ["orders", "order_lines", "customers", "products", "regions",
   "shippers", "shipping_methods", "suppliers", "packs"]

/-- The column list each table's SQL query selects (aliases applied). -/
def tableCols (n : String) : List String :=
  if n = "orders" then
    ["OrderId", "CustomerId", "SalesRepId", "CreatedAt_order", "DateOrdered",
     "DateExpected", "ShipDate", "ShippingMethodRequested"]
  else if n = "order_lines" then
    ["OrderLineId", "OrderId", "ProductId", "ShipperId", "QuantityShipped",
     "SalePrice", "UnitCost", "DateShipped"]
  else if n = "customers" then ["CustomerId", "CustomerName", "RegionId", "IsRetail"]
  else if n = "products" then
    ["ProductId", "SKU", "ProductName", "UnitOfBillingId", "SupplierId",
     "ProductListPrice", "CostPrice"]
  else if n = "regions" then ["RegionId", "RegionName"]
  else if n = "shippers" then ["ShipperId", "Carrier"]
  else if n = "shipping_methods" then ["SMId", "ShippingMethodName"]
  else if n = "suppliers" then ["SupplierId", "SupplierName"]
  else if n = "packs" then ["PickedForOrderLine", "WeightLb", "ItemCount", "DeliveryDate"]
  else []

/-- An oracle stands in for `pd.read_sql(qry, engine, params)`: one result or
one `SQLAlchemyError` message per table name (the date parameters are fixed by
the enclosing call, so they are baked into the oracle). -/
abbrev DbOracle := String → Except String DataFrame

/-- The body of the per-table loop: a successful query keeps its frame, a
failing one is replaced by the bare `pd.DataFrame()`. -/
def fetchOne (oracle : DbOracle) (n : String) : DataFrame :=
  match oracle n with
  | .ok df => df
  | .error _ => emptyDF

/-- The `logger.error` line the loop emits for a failing table, if any. -/
def fetchLog (oracle : DbOracle) (n : String) : List String :=
  match oracle n with
  | .ok _ => []
  | .error e => ["Error fetching '" ++ n ++ "': " ++ e]

/-- `fetch_raw_tables`: iterate the query dict; errors are logged and the
table replaced, the loop never aborts.  Returns (error log, raw dict). -/
def fetch_raw_tables (oracle : DbOracle) : List String × List (String × DataFrame) :=
  (tableNames.flatMap (fetchLog oracle), tableNames.map (fun n => (n, fetchOne oracle n)))

/-- The raw-table dict as `prepare_full_data` reads it. -/
structure RawTables where
  orders : DataFrame
  order_lines : DataFrame
  customers : DataFrame
  products : DataFrame
  regions : DataFrame
  shippers : DataFrame
  shipping_methods : DataFrame
  suppliers : DataFrame
  packs : DataFrame
deriving DecidableEq, Inhabited

def toRawTables (ts : List (String × DataFrame)) : RawTables :=
  { orders := (List.lookup "orders" ts).getD emptyDF
    order_lines := (List.lookup "order_lines" ts).getD emptyDF
    customers := (List.lookup "customers" ts).getD emptyDF
    products := (List.lookup "products" ts).getD emptyDF
    regions := (List.lookup "regions" ts).getD emptyDF
    shippers := (List.lookup "shippers" ts).getD emptyDF
    shipping_methods := (List.lookup "shipping_methods" ts).getD emptyDF
    suppliers := (List.lookup "suppliers" ts).getD emptyDF
    packs := (List.lookup "packs" ts).getD emptyDF }

/-- A fresh (memoization-free) fetch, as a `RawTables` record. -/
def fetchTables (oracle : DbOracle) : RawTables := toRawTables (fetch_raw_tables oracle).2

/-! ## data_preparation.py — `prepare_full_data` -/

/-- Step 0 (and the shipping-methods rename): every join-key column of every
raw table is overwritten with its `astype(str)` cast, in place — the returned
record is the post-mutation state of the same dict the caller passed in.
A missing key column is a `KeyError` that aborts the whole pipeline. -/
def castStep (raw : RawTables) : Except String RawTables := do
  let orders ← raw.orders.castCol "CustomerId"
  let orders ← orders.castCol "OrderId"
  let orders ← orders.castCol "SalesRepId"
  let orders ← orders.castCol "ShippingMethodRequested"
  let olines ← raw.order_lines.castCol "OrderId"
  let olines ← olines.castCol "OrderLineId"
  let olines ← olines.castCol "ProductId"
  let olines ← olines.castCol "ShipperId"
  let custs ← raw.customers.castCol "CustomerId"
  let custs ← custs.castCol "RegionId"
  let prods ← raw.products.castCol "ProductId"
  let prods ← prods.castCol "SupplierId"
  let regs ← raw.regions.castCol "RegionId"
  let shps ← raw.shippers.castCol "ShipperId"
  let sups ← raw.suppliers.castCol "SupplierId"
  let smeth := raw.shipping_methods.renameCol "SMId" "ShippingMethodRequested"
  let smeth ← smeth.castCol "ShippingMethodRequested"
  .ok { orders := orders, order_lines := olines, customers := custs,
        products := prods, regions := regs, shippers := shps,
        shipping_methods := smeth, suppliers := sups, packs := raw.packs }

/-- Steps 1–2: the inner join of orders with order lines, then the six static
left-join lookups in the dict's insertion order. -/
def joinStep (raw : RawTables) : Except String DataFrame := do
  let df ← raw.orders.merge raw.order_lines "OrderId" false
  let df ← df.merge raw.customers "CustomerId" true
  let df ← df.merge raw.products "ProductId" true
  let df ← df.merge raw.regions "RegionId" true
  let df ← df.merge raw.shippers "ShipperId" true
  let df ← df.merge raw.suppliers "SupplierId" true
  df.merge raw.shipping_methods "ShippingMethodRequested" true

/-- `packs.groupby('OrderLineId', as_index=False).agg(WeightLb=sum,
ItemCount=sum, DeliveryDate=max)`: one output row per distinct key.  (Group
order is immaterial downstream — the summary is only ever joined on its key.) -/
def packsSummary (p : DataFrame) : DataFrame :=
  { cols := ["OrderLineId", "WeightLb", "ItemCount", "DeliveryDate"],
    rows := (p.rows.map (fun r => getCell r "OrderLineId")).dedup.map (fun k =>
      let grp := p.rows.filter (fun r => decide (getCell r "OrderLineId" = k))
      [("OrderLineId", k),
       ("WeightLb", .num (sumNums (grp.map (fun r => getCell r "WeightLb")))),
       ("ItemCount", .num (sumNums (grp.map (fun r => getCell r "ItemCount")))),
       ("DeliveryDate", maxDateV (grp.map (fun r => getCell r "DeliveryDate")))]) }

/-- Step 3: skipped entirely when `packs.empty`; otherwise the packs frame is
itself mutated (string cast of `PickedForOrderLine`, new `OrderLineId` column)
before the grouped summary is left-joined and its two count columns
`fillna(0)`-ed.  Returns (post-mutation packs, updated main frame). -/
def packStep (packs : DataFrame) (df : DataFrame) :
    Except String (DataFrame × DataFrame) :=
  if packs.isEmptyDF then .ok (packs, df)
  else do
    let p ← packs.castCol "PickedForOrderLine"
    let p := p.assign "OrderLineId" (fun r => getCell r "PickedForOrderLine")
    let df ← df.merge (packsSummary p) "OrderLineId" true
    let df := df.assign "WeightLb" (fun r => denull (getCell r "WeightLb"))
    let df := df.assign "ItemCount" (fun r => denull (getCell r "ItemCount"))
    .ok (p, df)

def numcols : List String := ["QuantityShipped", "SalePrice", "UnitCost", "WeightLb", "ItemCount"]

/-- The `KeyError` pandas raises when `df[numcols]` selects absent columns. -/
def checkCols (df : DataFrame) (cs : List String) : Except String Unit :=
  if cs.all df.hasCol then .ok ()
  else .error ("KeyError: " ++ String.intercalate ", " (cs.filter (fun c => !df.hasCol c)))

/-- Step 4: `df[numcols] = df[numcols].apply(pd.to_numeric, errors='coerce').fillna(0.0)`. -/
def coerceNums (df : DataFrame) : DataFrame :=
  numcols.foldl (fun d c => d.assign c (fun r => toNum (getCell r c))) df

/-- The step-5/6 weight-billing test: `(df['UnitOfBillingId'] == 3) & (df['WeightLb'] > 0)`. -/
def isWeightBased (r : Row) : Bool :=
  decide (getCell r "UnitOfBillingId" = Value.num 3) && decide (0 < (getCell r "WeightLb").toQ)

/-- `df['Revenue']` as step 6 computes it:
`np.where(is_weight, WeightLb * SalePrice, ItemCount * SalePrice)`. -/
def revQ (r : Row) : ℚ :=
  if isWeightBased r then (getCell r "WeightLb").toQ * (getCell r "SalePrice").toQ
  else (getCell r "ItemCount").toQ * (getCell r "SalePrice").toQ

/-- `df['Cost']`: the same split against `UnitCost`. -/
def costQ (r : Row) : ℚ :=
  if isWeightBased r then (getCell r "WeightLb").toQ * (getCell r "UnitCost").toQ
  else (getCell r "ItemCount").toQ * (getCell r "UnitCost").toQ

/-- Step 5, `df['ShippedWeightLb']`: the per-item weight is
`WeightLb / ItemCount` with a zero `ItemCount` sent to NaN and filled to 0. -/
def swlFn (r : Row) : Value :=
  let w := (getCell r "WeightLb").toQ
  let i := (getCell r "ItemCount").toQ
  .num (if isWeightBased r then w else i * (if i = 0 then 0 else w / i))

def revFn (r : Row) : Value := .num (revQ r)

def costFn (r : Row) : Value := .num (costQ r)

/-- `df['Profit'] = df['Revenue'] - df['Cost']` — read back from the two
columns just assigned. -/
def profitFn (r : Row) : Value := .num ((getCell r "Revenue").toQ - (getCell r "Cost").toQ)

/-- `df['Date'] = pd.to_datetime(df['CreatedAt_order']).dt.normalize()` (the
normalize is the identity at day granularity). -/
def dateFn (r : Row) : Value := toDatetime (getCell r "CreatedAt_order")

def shipFn (r : Row) : Value := toDatetime (getCell r "ShipDate")

def delFn (r : Row) : Value := toDatetime (getCell r "DeliveryDate")

/-- `(DeliveryDate - ShipDate).dt.days.clip(lower=0)`: NaT on either side
gives NaN. -/
def transitOf (dd sd : Value) : Value :=
  match dd, sd with
  | .date d, .date s => .num ((max (d - s) 0 : Int) : ℚ)
  | _, _ => .null

def transitFn (r : Row) : Value := transitOf (getCell r "DeliveryDate") (getCell r "ShipDate")

/-- `np.where(DeliveryDate <= to_datetime(DateExpected), 'On Time', 'Late')`:
the datetime `≤` is false whenever either side is NaT. -/
def statusOf (dd de : Value) : String :=
  match dd, de with
  | .date d, .date e => if d ≤ e then "On Time" else "Late"
  | _, _ => "Late"

def statusFn (r : Row) : Value :=
  .str (statusOf (getCell r "DeliveryDate") (toDatetime (getCell r "DateExpected")))

/-- Steps 5–7 of `prepare_full_data`, all total once the numeric columns
exist: shipped weight, Revenue/Cost/Profit, and the temporal columns, in the
source's assignment order. -/
def finalize (df : DataFrame) : DataFrame :=
  ((((((((df.assign "ShippedWeightLb" swlFn).assign
    "Revenue" revFn).assign
    "Cost" costFn).assign
    "Profit" profitFn).assign
    "Date" dateFn).assign
    "ShipDate" shipFn).assign
    "DeliveryDate" delFn).assign
    "TransitDays" transitFn).assign
    "DeliveryStatus" statusFn

/-- `prepare_full_data(raw)`.  On success it returns both the prepared frame
and the post-mutation state of the raw dict (the function mutates its input in
place; the caller's dict — and hence the fetch cache's entry — ends up in this
state).  On an error the exception is logged and re-raised: no frame. -/
def prepare_full_data (raw : RawTables) : Except String (RawTables × DataFrame) := do
  let raw1 ← castStep raw
  let df ← joinStep raw1
  let (p2, df2) ← packStep raw1.packs df
  let _ ← checkCols df2 numcols
  .ok ({ raw1 with packs := p2 }, finalize (coerceNums df2))

/-! ## `lru_cache` and the app's load path (app.py `load_data`)

`fetch_raw_tables` is decorated with `functools.lru_cache`: a repeated
(start, end) key returns *the same dict object*.  Python references are
modelled with an explicit heap of `RawTables` objects; the cache maps a date
key to a heap address. -/

structure CacheState where
  heap : List (Nat × RawTables)
  cache : List ((String × String) × Nat)
  next : Nat
deriving Inhabited

def initState : CacheState := ⟨[], [], 0⟩

/-- The memoized fetch: a cache hit returns the stored address unchanged; a
miss runs the real fetch, allocates the dict and records it. -/
def fetchCached (oracle : DbOracle) (key : String × String) (s : CacheState) :
    Nat × CacheState :=
  match List.lookup key s.cache with
  | some id => (id, s)
  | none =>
      (s.next, { heap := s.heap ++ [(s.next, fetchTables oracle)],
                 cache := s.cache ++ [(key, s.next)],
                 next := s.next + 1 })

/-- `load_data` in app.py: fetch (through the cache), then prepare.  Because
`prepare_full_data` mutates the dict it is handed, a successful preparation
overwrites the heap object the cache still points to. -/
def load_data (oracle : DbOracle) (key : String × String) (s : CacheState) :
    Except String DataFrame × CacheState :=
  let (id, s1) := fetchCached oracle key s
  match prepare_full_data (((List.lookup id s1.heap)).getD default) with
  | .ok (raw', df) =>
      (.ok df, { s1 with heap := s1.heap.map (fun p => if p.1 = id then (id, raw') else p) })
  | .error e => (.error e, s1)

/-! ## tabs/customers.py — `compute_rfm`

`pd.qcut(x, 4, labels=...)` computes the 0/25/50/75/100-percentiles of `x`
with numpy's linear interpolation, refuses duplicate bin edges
("Bin edges must be unique"), and otherwise buckets each value into the four
right-closed intervals between consecutive edges (the lowest edge included). -/

/-- Numpy's linear-interpolation percentile on an already sorted nonempty
list: index `q * (n - 1)` is split into whole part and fraction and the two
neighbouring order statistics interpolated. -/
def quantileSorted (s : List ℚ) (q : ℚ) : ℚ :=
  let h : ℚ := q * ((s.length : ℚ) - 1)
  let i : Nat := (Int.floor h).toNat
  let a := s.getD i 0
  let b := (s[i + 1]?).getD a
  a + (h - (Int.floor h : ℚ)) * (b - a)

/-- The five quartile edges `pd.qcut(·, 4)` computes for a value list. -/
def qcutEdges (vals : List ℚ) : List ℚ :=
  let s := List.insertionSort (· ≤ ·) vals
  [quantileSorted s 0, quantileSorted s (1/4), quantileSorted s (1/2),
   quantileSorted s (3/4), quantileSorted s 1]

/-- Which of the four `(eᵢ, eᵢ₊₁]` bins (lowest included) a value lands in,
rendered directly as the supplied label. -/
def binLabel (edges : List ℚ) (labels : List Nat) (v : ℚ) : Nat :=
  if v ≤ edges.getD 1 0 then labels.getD 0 0
  else if v ≤ edges.getD 2 0 then labels.getD 1 0
  else if v ≤ edges.getD 3 0 then labels.getD 2 0
  else labels.getD 3 0

/-- `pd.qcut(vals, 4, labels=labels).astype(int)`: an error on duplicate
edges, otherwise each value's bin label, positionally. -/
def qcut (vals : List ℚ) (labels : List Nat) : Except String (List Nat) :=
  if (qcutEdges vals).Nodup then .ok (vals.map (binLabel (qcutEdges vals) labels))
  else .error "Bin edges must be unique"

/-- Largest `Date` cell of a row set (the rows reaching `compute_rfm` carry
timestamp dates: `render` drops null-`Date` rows before calling it). -/
def maxDateI (rs : List Row) : Int :=
  rs.foldl (fun a r => match getCell r "Date" with
    | .date d => max a d
    | _ => a) 0

/-- One customer's `groupby("CustomerName").agg(...)` record. -/
structure CustAgg where
  name : Value
  recency : ℚ
  frequency : ℚ
  monetary : ℚ
deriving DecidableEq, Inhabited

/-- `df.groupby("CustomerName").agg(Recency=..., Frequency=..., Monetary=...)`:
one record per distinct non-null customer name (pandas' groupby drops NaN
keys); Recency in days from the frame-wide latest date, Frequency a distinct
order count, Monetary a NaN-skipping revenue sum.  Key order is immaterial
downstream: `qcut` scores positionally. -/
def rfmAgg (df : DataFrame) : List CustAgg :=
  let now := maxDateI df.rows
  ((df.rows.map (fun r => getCell r "CustomerName")).dedup.filter
      (fun k => decide (k ≠ .null))).map (fun k =>
    let grp := df.rows.filter (fun r => decide (getCell r "CustomerName" = k))
    { name := k,
      recency := ((now - maxDateI grp : Int) : ℚ),
      frequency := (((grp.map (fun r => getCell r "OrderId")).dedup.length : Nat) : ℚ),
      monetary := sumNums (grp.map (fun r => getCell r "Revenue")) })

/-- One output row of `compute_rfm`. -/
structure RfmRow where
  name : Value
  recency : ℚ
  frequency : ℚ
  monetary : ℚ
  rScore : Nat
  fScore : Nat
  mScore : Nat
  segment : String
deriving DecidableEq, Inhabited

/-- `compute_rfm`: aggregate per customer, quartile-score Recency 4→1 and
Frequency/Monetary 1→4, concatenate the three digits into the RFM code.  Any
`qcut` failure propagates (`st.cache_data` replays the exception). -/
def compute_rfm (df : DataFrame) : Except String (List RfmRow) := do
  let agg := rfmAgg df
  let rs ← qcut (agg.map (fun a => a.recency)) [4, 3, 2, 1]
  let fs ← qcut (agg.map (fun a => a.frequency)) [1, 2, 3, 4]
  let ms ← qcut (agg.map (fun a => a.monetary)) [1, 2, 3, 4]
  .ok ((List.range agg.length).map (fun i =>
    let a := agg.getD i default
    let r := rs.getD i 0
    let f := fs.getD i 0
    let m := ms.getD i 0
    { name := a.name, recency := a.recency, frequency := a.frequency,
      monetary := a.monetary, rScore := r, fScore := f, mScore := m,
      segment := toString r ++ toString f ++ toString m }))

/-! ## Concrete instances -/

/-- The raw-table schemas exactly as the fetcher's queries deliver them —
the well-formedness every real input of `prepare_full_data` has. -/
def SchemaOK (raw : RawTables) : Prop :=
  raw.orders.cols = tableCols "orders" ∧
  raw.order_lines.cols = tableCols "order_lines" ∧
  raw.customers.cols = tableCols "customers" ∧
  raw.products.cols = tableCols "products" ∧
  raw.regions.cols = tableCols "regions" ∧
  raw.shippers.cols = tableCols "shippers" ∧
  raw.shipping_methods.cols = tableCols "shipping_methods" ∧
  raw.suppliers.cols = tableCols "suppliers" ∧
  raw.packs.cols = tableCols "packs"

instance (raw : RawTables) : Decidable (SchemaOK raw) := by
  unfold SchemaOK; infer_instance

/-- A small consistent fetch result: one order with two lines, line `L1`
weight-billed and packed (3 lb over 2 items, delivered day 9), line `L2`
without any pack.  Dates are day numbers: order created day 5, shipped day 7,
expected day 10.  `CustomerId` is numeric in the orders table and a numeric
string in the customers table — the very mismatch the pipeline's string casts
exist to join across. -/
def wRaw : RawTables where
  orders := ⟨tableCols "orders",
    [[("OrderId", .str "1"), ("CustomerId", .num 7), ("SalesRepId", .str "S1"),
      ("CreatedAt_order", .date 5), ("DateOrdered", .null), ("DateExpected", .date 10),
      ("ShipDate", .date 7), ("ShippingMethodRequested", .str "M1")]]⟩
  order_lines := ⟨tableCols "order_lines",
    [[("OrderLineId", .str "L1"), ("OrderId", .str "1"), ("ProductId", .str "P1"),
      ("ShipperId", .str "H1"), ("QuantityShipped", .num 2), ("SalePrice", .num 10),
      ("UnitCost", .num 4), ("DateShipped", .null)],
     [("OrderLineId", .str "L2"), ("OrderId", .str "1"), ("ProductId", .str "P2"),
      ("ShipperId", .str "H1"), ("QuantityShipped", .num 1), ("SalePrice", .num 5),
      ("UnitCost", .num 2), ("DateShipped", .null)]]⟩
  customers := ⟨tableCols "customers",
    [[("CustomerId", .str "7"), ("CustomerName", .str "Acme"), ("RegionId", .str "R1"),
      ("IsRetail", .num 0)]]⟩
  products := ⟨tableCols "products",
    [[("ProductId", .str "P1"), ("SKU", .str "SKU1"), ("ProductName", .str "Widget"),
      ("UnitOfBillingId", .num 3), ("SupplierId", .str "U1"),
      ("ProductListPrice", .num 10), ("CostPrice", .num 4)],
     [("ProductId", .str "P2"), ("SKU", .str "SKU2"), ("ProductName", .str "Gadget"),
      ("UnitOfBillingId", .num 1), ("SupplierId", .str "U1"),
      ("ProductListPrice", .num 5), ("CostPrice", .num 2)]]⟩
  regions := ⟨tableCols "regions", [[("RegionId", .str "R1"), ("RegionName", .str "West")]]⟩
  shippers := ⟨tableCols "shippers", [[("ShipperId", .str "H1"), ("Carrier", .str "Fast")]]⟩
  shipping_methods := ⟨tableCols "shipping_methods",
    [[("SMId", .str "M1"), ("ShippingMethodName", .str "Ground")]]⟩
  suppliers := ⟨tableCols "suppliers", [[("SupplierId", .str "U1"), ("SupplierName", .str "Sup")]]⟩
  packs := ⟨tableCols "packs",
    [[("PickedForOrderLine", .str "L1"), ("WeightLb", .num 3), ("ItemCount", .num 2),
      ("DeliveryDate", .date 9)]]⟩

/-- The successful preparation of `wRaw` (mutated raw dict and prepared frame). -/
def wPrep : RawTables × DataFrame :=
  match prepare_full_data wRaw with
  | .ok p => p
  | .error _ => default

/-- The spec's §8 scenario: one order (created day 5, shipped day 7, expected
day 10), one matching order line (2 shipped at price 10, cost 4), every lookup
table present but empty, and — decisively — an empty packs table. -/
def c3raw : RawTables where
  orders := ⟨tableCols "orders",
    [[("OrderId", .str "1"), ("CustomerId", .str "C1"), ("SalesRepId", .null),
      ("CreatedAt_order", .date 5), ("DateOrdered", .null), ("DateExpected", .date 10),
      ("ShipDate", .date 7), ("ShippingMethodRequested", .null)]]⟩
  order_lines := ⟨tableCols "order_lines",
    [[("OrderLineId", .str "L1"), ("OrderId", .str "1"), ("ProductId", .str "P1"),
      ("ShipperId", .null), ("QuantityShipped", .num 2), ("SalePrice", .num 10),
      ("UnitCost", .num 4), ("DateShipped", .null)]]⟩
  customers := ⟨tableCols "customers", []⟩
  products := ⟨tableCols "products", []⟩
  regions := ⟨tableCols "regions", []⟩
  shippers := ⟨tableCols "shippers", []⟩
  shipping_methods := ⟨tableCols "shipping_methods", []⟩
  suppliers := ⟨tableCols "suppliers", []⟩
  packs := ⟨tableCols "packs", []⟩

/-- An upstream where the orders query alone fails and every other table
answers with its (empty but fully-columned) result set. -/
def o4 : DbOracle := fun n =>
  if n = "orders" then .error "connection reset" else .ok ⟨tableCols n, []⟩

/-- An upstream returning exactly the `wRaw` tables. -/
def o9 : DbOracle := fun n =>
  if n = "orders" then .ok wRaw.orders
  else if n = "order_lines" then .ok wRaw.order_lines
  else if n = "customers" then .ok wRaw.customers
  else if n = "products" then .ok wRaw.products
  else if n = "regions" then .ok wRaw.regions
  else if n = "shippers" then .ok wRaw.shippers
  else if n = "shipping_methods" then .ok wRaw.shipping_methods
  else if n = "suppliers" then .ok wRaw.suppliers
  else if n = "packs" then .ok wRaw.packs
  else .error "no such table"

/-- The heap cell the first `load_data` leaves behind for `o9`'s cache key. -/
def c9Heap : Option RawTables :=
  List.lookup 0 ((load_data o9 ("2020-01-01", "2023-12-31") initState).2).heap

/-- A filtered frame with two customers whose Recency, Frequency and Monetary
values are pairwise distinct: `A` has two orders (days 9 and 10, revenue 300),
`B` one order (day 8, revenue 50). -/
def c10df : DataFrame :=
  ⟨["CustomerName", "Date", "OrderId", "Revenue"],
   [[("CustomerName", .str "A"), ("Date", .date 10), ("OrderId", .str "1"), ("Revenue", .num 100)],
    [("CustomerName", .str "A"), ("Date", .date 9), ("OrderId", .str "2"), ("Revenue", .num 200)],
    [("CustomerName", .str "B"), ("Date", .date 8), ("OrderId", .str "3"), ("Revenue", .num 50)]]⟩

/-- A frame with a single customer: every quartile edge of every measure
coincides. -/
def oneCustDf : DataFrame :=
  ⟨["CustomerName", "Date", "OrderId", "Revenue"],
   [[("CustomerName", .str "A"), ("Date", .date 10), ("OrderId", .str "1"), ("Revenue", .num 100)]]⟩

/-- A successfully scored frame for the RFM witnesses: four customers with
pairwise distinct Recency, Frequency and Monetary. -/
def wRfmDf : DataFrame :=
  ⟨["CustomerName", "Date", "OrderId", "Revenue"],
   [[("CustomerName", .str "A"), ("Date", .date 10), ("OrderId", .str "1"), ("Revenue", .num 100)],
    [("CustomerName", .str "A"), ("Date", .date 9), ("OrderId", .str "2"), ("Revenue", .num 100)],
    [("CustomerName", .str "A"), ("Date", .date 8), ("OrderId", .str "3"), ("Revenue", .num 100)],
    [("CustomerName", .str "A"), ("Date", .date 7), ("OrderId", .str "4"), ("Revenue", .num 100)],
    [("CustomerName", .str "B"), ("Date", .date 8), ("OrderId", .str "5"), ("Revenue", .num 120)],
    [("CustomerName", .str "B"), ("Date", .date 7), ("OrderId", .str "6"), ("Revenue", .num 120)],
    [("CustomerName", .str "B"), ("Date", .date 6), ("OrderId", .str "7"), ("Revenue", .num 120)],
    [("CustomerName", .str "C"), ("Date", .date 6), ("OrderId", .str "8"), ("Revenue", .num 500)],
    [("CustomerName", .str "C"), ("Date", .date 5), ("OrderId", .str "9"), ("Revenue", .num 500)],
    [("CustomerName", .str "D"), ("Date", .date 4), ("OrderId", .str "10"), ("Revenue", .num 70)]]⟩

/-- The scored rows for `wRfmDf`. -/
def wRfm : List RfmRow :=
  match compute_rfm wRfmDf with
  | .ok rows => rows
  | .error _ => default

/-! ## Helper lemmas -/

theorem getCell_cons (c c0 : String) (v : Value) (r : Row) :
    getCell ((c0, v) :: r) c = if c = c0 then v else getCell r c := by
  by_cases h : c = c0
  · simp [getCell, List.lookup, h]
  · have hb : (c == c0) = false := by simp [h]
    simp [getCell, List.lookup, hb, h]

theorem getCell_set_self (r : Row) (c : String) (v : Value) :
    getCell (setCell r c v) c = v := by
  simp [setCell, getCell_cons]

theorem getCell_set_ne (r : Row) (c c' : String) (v : Value) (h : c' ≠ c) :
    getCell (setCell r c v) c' = getCell r c' := by
  simp [setCell, getCell_cons, h]

theorem toNum_shape (v : Value) : ∃ q : ℚ, toNum v = .num q := by
  cases v with
  | str s => cases h : s.toInt? <;> simp [toNum, h]
  | _ => simp [toNum]

/-- Every success of `prepare_full_data` factors through its four fallible
stages, and the output frame is the finalization of the coerced joined frame. -/
theorem prepare_ok_elim {raw : RawTables} {p : RawTables × DataFrame}
    (h : prepare_full_data raw = .ok p) :
    ∃ raw1 df p2 df2, castStep raw = .ok raw1 ∧ joinStep raw1 = .ok df ∧
      packStep raw1.packs df = .ok (p2, df2) ∧ checkCols df2 numcols = .ok () ∧
      p = ({ raw1 with packs := p2 }, finalize (coerceNums df2)) := by
  unfold prepare_full_data at h
  simp only [bind, Except.bind] at h
  cases h1 : castStep raw with
  | error e => simp [h1] at h
  | ok raw1 =>
  cases h2 : joinStep raw1 with
  | error e => simp [h1, h2] at h
  | ok df =>
  cases h3 : packStep raw1.packs df with
  | error e => simp [h1, h2, h3] at h
  | ok pr =>
  obtain ⟨p2, df2⟩ := pr
  cases h4 : checkCols df2 numcols with
  | error e => simp [h1, h2, h3, h4] at h
  | ok u =>
  cases u
  simp only [h1, h2, h3, h4, Except.ok.injEq] at h
  exact ⟨raw1, df, p2, df2, rfl, h2, h3, h4, h.symm⟩

/-- Membership in the rows of a column assignment. -/
theorem mem_assign_rows {d : DataFrame} {c : String} {f : Row → Value} {r : Row}
    (hr : r ∈ (DataFrame.assign d c f).rows) : ∃ r0 ∈ d.rows, r = setCell r0 c (f r0) := by
  simp only [DataFrame.assign, List.mem_map] at hr
  obtain ⟨r0, h0, h⟩ := hr
  exact ⟨r0, h0, h.symm⟩

/-- How each cell a claim mentions reads off a row of `finalize d`, in terms
of the underlying row of `d`. -/
theorem finalize_cells {d : DataFrame} {r : Row} (hr : r ∈ (finalize d).rows) :
    ∃ r0 ∈ d.rows,
      getCell r "OrderLineId" = getCell r0 "OrderLineId" ∧
      getCell r "UnitOfBillingId" = getCell r0 "UnitOfBillingId" ∧
      getCell r "WeightLb" = getCell r0 "WeightLb" ∧
      getCell r "ItemCount" = getCell r0 "ItemCount" ∧
      getCell r "SalePrice" = getCell r0 "SalePrice" ∧
      getCell r "UnitCost" = getCell r0 "UnitCost" ∧
      getCell r "DateExpected" = getCell r0 "DateExpected" ∧
      getCell r "Revenue" = .num (revQ r0) ∧
      getCell r "Cost" = .num (costQ r0) ∧
      getCell r "Profit" = .num (revQ r0 - costQ r0) ∧
      getCell r "ShipDate" = toDatetime (getCell r0 "ShipDate") ∧
      getCell r "DeliveryDate" = toDatetime (getCell r0 "DeliveryDate") ∧
      getCell r "TransitDays" =
        transitOf (toDatetime (getCell r0 "DeliveryDate")) (toDatetime (getCell r0 "ShipDate")) ∧
      getCell r "DeliveryStatus" =
        .str (statusOf (toDatetime (getCell r0 "DeliveryDate"))
          (toDatetime (getCell r0 "DateExpected"))) := by
  unfold finalize at hr
  obtain ⟨r8, hr8, rfl⟩ := mem_assign_rows hr
  obtain ⟨r7, hr7, rfl⟩ := mem_assign_rows hr8
  obtain ⟨r6, hr6, rfl⟩ := mem_assign_rows hr7
  obtain ⟨r5, hr5, rfl⟩ := mem_assign_rows hr6
  obtain ⟨r4, hr4, rfl⟩ := mem_assign_rows hr5
  obtain ⟨r3, hr3, rfl⟩ := mem_assign_rows hr4
  obtain ⟨r2, hr2, rfl⟩ := mem_assign_rows hr3
  obtain ⟨r1, hr1, rfl⟩ := mem_assign_rows hr2
  obtain ⟨r0, hr0, rfl⟩ := mem_assign_rows hr1
  refine ⟨r0, hr0, ?_⟩
  clear hr hr1 hr2 hr3 hr4 hr5 hr6 hr7 hr8
  simp +decide only [getCell_set_self, getCell_set_ne, statusFn, transitFn, profitFn,
    revFn, costFn, shipFn, delFn, dateFn, swlFn, revQ, costQ, isWeightBased,
    Value.toQ, ne_eq, not_false_eq_true, and_self, and_true, true_and]

/-- How the cells the claims mention read off a row of `coerceNums d`. -/
theorem coerceNums_cells {d : DataFrame} {r : Row} (hr : r ∈ (coerceNums d).rows) :
    ∃ r0 ∈ d.rows,
      getCell r "OrderLineId" = getCell r0 "OrderLineId" ∧
      getCell r "UnitOfBillingId" = getCell r0 "UnitOfBillingId" ∧
      getCell r "DateExpected" = getCell r0 "DateExpected" ∧
      getCell r "ShipDate" = getCell r0 "ShipDate" ∧
      getCell r "DeliveryDate" = getCell r0 "DeliveryDate" ∧
      getCell r "CreatedAt_order" = getCell r0 "CreatedAt_order" ∧
      getCell r "QuantityShipped" = toNum (getCell r0 "QuantityShipped") ∧
      getCell r "SalePrice" = toNum (getCell r0 "SalePrice") ∧
      getCell r "UnitCost" = toNum (getCell r0 "UnitCost") ∧
      getCell r "WeightLb" = toNum (getCell r0 "WeightLb") ∧
      getCell r "ItemCount" = toNum (getCell r0 "ItemCount") := by
  simp only [coerceNums, numcols, List.foldl_cons, List.foldl_nil] at hr
  obtain ⟨r4, hr4, rfl⟩ := mem_assign_rows hr
  obtain ⟨r3, hr3, rfl⟩ := mem_assign_rows hr4
  obtain ⟨r2, hr2, rfl⟩ := mem_assign_rows hr3
  obtain ⟨r1, hr1, rfl⟩ := mem_assign_rows hr2
  obtain ⟨r0, hr0, rfl⟩ := mem_assign_rows hr1
  refine ⟨r0, hr0, ?_⟩
  clear hr hr1 hr2 hr3 hr4
  simp +decide only [getCell_set_self, getCell_set_ne, ne_eq, not_false_eq_true,
    and_self, and_true, true_and]

/-! ## C1 — Profit = Revenue − Cost on every prepared row -/

/-- C1: every row of a dataset returned by `prepare_full_data` carries numeric
Revenue and Cost cells, and its Profit cell is exactly their difference. -/
theorem profit_is_revenue_minus_cost (raw : RawTables) (p : RawTables × DataFrame)
    (h : prepare_full_data raw = .ok p) (r : Row) (hr : r ∈ p.2.rows) :
    ∃ rev cost : ℚ, getCell r "Revenue" = .num rev ∧ getCell r "Cost" = .num cost ∧
      getCell r "Profit" = .num (rev - cost) := by
  obtain ⟨raw1, df, p2, df2, h1, h2, h3, h4, rfl⟩ := prepare_ok_elim h
  obtain ⟨r0, hr0, hc⟩ := finalize_cells hr
  exact ⟨revQ r0, costQ r0, hc.2.2.2.2.2.2.2.1, hc.2.2.2.2.2.2.2.2.1, hc.2.2.2.2.2.2.2.2.2.1⟩

/-! ## C2 — the weight-based / item-based Revenue and Cost split -/

/-- C2: on every prepared row the numeric cells WeightLb, ItemCount,
SalePrice, UnitCost determine Revenue and Cost: weight × price when
UnitOfBillingId = 3 and WeightLb > 0, item count × price otherwise. -/
theorem revenue_cost_billing_split (raw : RawTables) (p : RawTables × DataFrame)
    (h : prepare_full_data raw = .ok p) (r : Row) (hr : r ∈ p.2.rows) :
    ∃ w i sp uc : ℚ,
      getCell r "WeightLb" = .num w ∧ getCell r "ItemCount" = .num i ∧
      getCell r "SalePrice" = .num sp ∧ getCell r "UnitCost" = .num uc ∧
      ((getCell r "UnitOfBillingId" = .num 3 ∧ 0 < w) →
        getCell r "Revenue" = .num (w * sp) ∧ getCell r "Cost" = .num (w * uc)) ∧
      (¬(getCell r "UnitOfBillingId" = .num 3 ∧ 0 < w) →
        getCell r "Revenue" = .num (i * sp) ∧ getCell r "Cost" = .num (i * uc)) := by
  obtain ⟨raw1, df, p2, df2, h1, h2, h3, h4, rfl⟩ := prepare_ok_elim h
  obtain ⟨r0, hr0, hc⟩ := finalize_cells hr
  obtain ⟨hOL, hUoB, hW, hI, hSP, hUC, hDE, hRev, hCost, hProf, hrest⟩ := hc
  obtain ⟨r00, hr00, _, hUoB0, _, _, _, _, _, hSP0, hUC0, hW0, hI0⟩ := coerceNums_cells hr0
  obtain ⟨w, hw⟩ := toNum_shape (getCell r00 "WeightLb")
  obtain ⟨i, hi⟩ := toNum_shape (getCell r00 "ItemCount")
  obtain ⟨sp, hsp⟩ := toNum_shape (getCell r00 "SalePrice")
  obtain ⟨uc, huc⟩ := toNum_shape (getCell r00 "UnitCost")
  rw [hw] at hW0; rw [hi] at hI0; rw [hsp] at hSP0; rw [huc] at hUC0
  rw [hUoB0] at hUoB
  refine ⟨w, i, sp, uc, hW.trans hW0, hI.trans hI0, hSP.trans hSP0, hUC.trans hUC0, ?_, ?_⟩
  · intro hcond
    have hb : isWeightBased r0 = true := by
      rw [isWeightBased, hW0, hUoB0, ← hUoB]
      simp [Value.toQ, hcond.1, hcond.2]
    constructor
    · rw [hRev, revQ, hb, hW0, hSP0]; simp [Value.toQ]
    · rw [hCost, costQ, hb, hW0, hUC0]; simp [Value.toQ]
  · intro hcond
    have hb : isWeightBased r0 = false := by
      rw [isWeightBased, hW0, hUoB0, ← hUoB]
      rcases not_and_or.mp hcond with hc1 | hc2
      · simp [hc1]
      · simp [Value.toQ, hc2]
    constructor
    · rw [hRev, revQ, hb, hI0, hSP0]; simp [Value.toQ]
    · rw [hCost, costQ, hb, hI0, hUC0]; simp [Value.toQ]

/-! ## C6 — DeliveryStatus -/

/-- C6: DeliveryStatus is `"On Time"` exactly when both DeliveryDate and the
parsed DateExpected are dates with DeliveryDate ≤ DateExpected; every other
row — in particular a null on either side — is `"Late"`. -/
theorem delivery_status_classification (raw : RawTables) (p : RawTables × DataFrame)
    (h : prepare_full_data raw = .ok p) (r : Row) (hr : r ∈ p.2.rows) :
    (getCell r "DeliveryStatus" = .str "On Time" ∨ getCell r "DeliveryStatus" = .str "Late") ∧
    (getCell r "DeliveryStatus" = .str "On Time" ↔
      ∃ dd de : Int, getCell r "DeliveryDate" = .date dd ∧
        toDatetime (getCell r "DateExpected") = .date de ∧ dd ≤ de) ∧
    ((getCell r "DeliveryDate" = .null ∨ toDatetime (getCell r "DateExpected") = .null) →
      getCell r "DeliveryStatus" = .str "Late") := by
  obtain ⟨raw1, df, p2, df2, h1, h2, h3, h4, rfl⟩ := prepare_ok_elim h
  obtain ⟨r0, hr0, hc⟩ := finalize_cells hr
  obtain ⟨hOL, hUoB, hW, hI, hSP, hUC, hDE, hRev, hCost, hProf, hSD, hDD, hTD, hDS⟩ := hc
  rw [hDS, hDD, hDE]
  cases hd : toDatetime (getCell r0 "DeliveryDate") with
  | date dd =>
      cases he : toDatetime (getCell r0 "DateExpected") with
      | date de =>
          by_cases hle : dd ≤ de
          · simp [statusOf, hle]
          · simp [statusOf, hle]
      | null => simp [statusOf]
      | str s => simp [toDatetime] at he; cases hv : getCell r0 "DateExpected" <;>
          rw [hv] at he <;> simp [toDatetime] at he
      | num q => simp [toDatetime] at he; cases hv : getCell r0 "DateExpected" <;>
          rw [hv] at he <;> simp [toDatetime] at he
  | null => simp [statusOf]
  | str s => cases hv : getCell r0 "DeliveryDate" <;> rw [hv] at hd <;> simp [toDatetime] at hd
  | num q => cases hv : getCell r0 "DeliveryDate" <;> rw [hv] at hd <;> simp [toDatetime] at hd

/-! ## C7 — TransitDays -/

/-- C7: TransitDays is a non-negative number when present, and is null
whenever the parsed ShipDate or DeliveryDate is null. -/
theorem transit_days_clipped_or_null (raw : RawTables) (p : RawTables × DataFrame)
    (h : prepare_full_data raw = .ok p) (r : Row) (hr : r ∈ p.2.rows) :
    (∀ q : ℚ, getCell r "TransitDays" = .num q → 0 ≤ q) ∧
    ((getCell r "ShipDate" = .null ∨ getCell r "DeliveryDate" = .null) →
      getCell r "TransitDays" = .null) := by
  obtain ⟨raw1, df, p2, df2, h1, h2, h3, h4, rfl⟩ := prepare_ok_elim h
  obtain ⟨r0, hr0, hc⟩ := finalize_cells hr
  obtain ⟨hOL, hUoB, hW, hI, hSP, hUC, hDE, hRev, hCost, hProf, hSD, hDD, hTD, hDS⟩ := hc
  rw [hTD, hSD, hDD]
  constructor
  · intro q hq
    cases hd : toDatetime (getCell r0 "DeliveryDate") with
    | date dd =>
        cases hs : toDatetime (getCell r0 "ShipDate") with
        | date sd =>
            rw [hd, hs] at hq
            simp only [transitOf, Value.num.injEq] at hq
            rw [← hq]
            exact_mod_cast le_max_right (dd - sd) 0
        | _ => rw [hd, hs] at hq; simp [transitOf] at hq
    | _ => rw [hd] at hq; simp [transitOf] at hq
  · rintro (hs | hd)
    · rw [hs]; cases toDatetime (getCell r0 "DeliveryDate") <;> simp [transitOf]
    · rw [hd]; simp [transitOf]

theorem headD_mem {α : Type} (l : List α) (d : α) (h : l ≠ []) : l.headD d ∈ l := by
  cases l with
  | nil => exact absurd rfl h
  | cons a t => simp

theorem getD_mem {α : Type} : ∀ (l : List α) (i : Nat) (d : α), i < l.length → l.getD i d ∈ l
  | a :: t, 0, d, _ => by simp
  | a :: t, i + 1, d, h => by
      simp only [List.getD_cons_succ]
      exact List.mem_cons_of_mem a (getD_mem t i d (by simpa using h))

/-- The first prepared row of `wRaw` (order line `L1`, the packed one). -/
def wRow1 : Row := wPrep.2.rows.headD []

/-- The second prepared row of `wRaw` (order line `L2`, no pack). -/
def wRow2 : Row := wPrep.2.rows.getD 1 []

theorem profit_is_revenue_minus_cost_witness :
    ∃ rev cost : ℚ, getCell wRow1 "Revenue" = .num rev ∧ getCell wRow1 "Cost" = .num cost ∧
      getCell wRow1 "Profit" = .num (rev - cost) :=
  profit_is_revenue_minus_cost wRaw wPrep (by rfl) wRow1 (headD_mem _ _ (by decide))

theorem revenue_cost_billing_split_witness :
    ∃ w i sp uc : ℚ,
      getCell wRow1 "WeightLb" = .num w ∧ getCell wRow1 "ItemCount" = .num i ∧
      getCell wRow1 "SalePrice" = .num sp ∧ getCell wRow1 "UnitCost" = .num uc ∧
      ((getCell wRow1 "UnitOfBillingId" = .num 3 ∧ 0 < w) →
        getCell wRow1 "Revenue" = .num (w * sp) ∧ getCell wRow1 "Cost" = .num (w * uc)) ∧
      (¬(getCell wRow1 "UnitOfBillingId" = .num 3 ∧ 0 < w) →
        getCell wRow1 "Revenue" = .num (i * sp) ∧ getCell wRow1 "Cost" = .num (i * uc)) :=
  revenue_cost_billing_split wRaw wPrep (by rfl) wRow1 (headD_mem _ _ (by decide))

theorem delivery_status_classification_witness :
    (getCell wRow1 "DeliveryStatus" = .str "On Time" ∨
      getCell wRow1 "DeliveryStatus" = .str "Late") ∧
    (getCell wRow1 "DeliveryStatus" = .str "On Time" ↔
      ∃ dd de : Int, getCell wRow1 "DeliveryDate" = .date dd ∧
        toDatetime (getCell wRow1 "DateExpected") = .date de ∧ dd ≤ de) ∧
    ((getCell wRow1 "DeliveryDate" = .null ∨
        toDatetime (getCell wRow1 "DateExpected") = .null) →
      getCell wRow1 "DeliveryStatus" = .str "Late") :=
  delivery_status_classification wRaw wPrep (by rfl) wRow1 (headD_mem _ _ (by decide))

theorem transit_days_clipped_or_null_witness :
    (∀ q : ℚ, getCell wRow2 "TransitDays" = .num q → 0 ≤ q) ∧
    ((getCell wRow2 "ShipDate" = .null ∨ getCell wRow2 "DeliveryDate" = .null) →
      getCell wRow2 "TransitDays" = .null) :=
  transit_days_clipped_or_null wRaw wPrep (by rfl) wRow2 (getD_mem _ _ _ (by decide))

/-- A successful string cast leaves the column list unchanged. -/
theorem castCol_cols {df df' : DataFrame} {c : String} (h : df.castCol c = .ok df') :
    df'.cols = df.cols := by
  unfold DataFrame.castCol at h
  split at h
  · cases h
    simp only [DataFrame.assign]
    rw [if_pos (by assumption)]
  · cases h

/-- A successful merge concatenates the left columns with the right's non-key
columns. -/
theorem merge_cols {l r : DataFrame} {key : String} {b : Bool} {m : DataFrame}
    (h : DataFrame.merge l r key b = .ok m) :
    m.cols = l.cols ++ r.cols.filter (fun c => c ≠ key) := by
  unfold DataFrame.merge at h
  split at h
  · cases h; rfl
  · cases h

/-- A successful merge draws every output row from a left row: either joined
with a key-equal right row, or (left join) padded with nulls when no right row
matches. -/
theorem mem_merge_rows {l r : DataFrame} {key : String} {m : DataFrame} {x : Row}
    (h : DataFrame.merge l r key true = .ok m) (hx : x ∈ m.rows) :
    ∃ lr ∈ l.rows,
      (∃ rr ∈ r.rows, getCell rr key = getCell lr key ∧
        x = (r.cols.filter (fun c => c ≠ key)).foldl
          (fun acc c => setCell acc c (getCell rr c)) lr) ∨
      ((∀ rr ∈ r.rows, getCell rr key ≠ getCell lr key) ∧
        x = (r.cols.filter (fun c => c ≠ key)).foldl
          (fun acc c => setCell acc c Value.null) lr) := by
  unfold DataFrame.merge at h
  split at h
  · cases h
    simp only [List.mem_flatMap] at hx
    obtain ⟨lr, hlr, hin⟩ := hx
    refine ⟨lr, hlr, ?_⟩
    split at hin
    · next hemp =>
        rw [if_pos trivial] at hin
        simp only [List.mem_singleton] at hin
        refine Or.inr ⟨?_, hin⟩
        intro rr hrr heq
        have : rr ∈ r.rows.filter (fun rr => decide (getCell rr key = getCell lr key)) := by
          simp [List.mem_filter, hrr, heq]
        rw [List.isEmpty_iff.mp hemp] at this
        cases this
    · next hemp =>
        simp only [List.mem_map] at hin
        obtain ⟨rr, hrr, hxeq⟩ := hin
        have h2 := List.mem_filter.mp hrr
        exact Or.inl ⟨rr, h2.1, by simpa using h2.2, hxeq.symm⟩
  · cases h

/-- Folding `setCell` over a column list never touches a column outside it. -/
theorem getCell_foldl_set_ne (g : String → Value) (c : String) :
    ∀ (cs : List String) (lr : Row), c ∉ cs →
      getCell (cs.foldl (fun acc x => setCell acc x (g x)) lr) c = getCell lr c
  | [], lr, _ => rfl
  | x :: t, lr, hc => by
      simp only [List.foldl_cons]
      rw [getCell_foldl_set_ne g c t _ (fun ht => hc (List.mem_cons_of_mem x ht)),
        getCell_set_ne _ _ _ _ (fun he => hc (by rw [he]; exact List.mem_cons_self x t))]

/-- Every row of the pack summary inherits its key from some pack row. -/
theorem packsSummary_row_key {p : DataFrame} {rr : Row}
    (h : rr ∈ (packsSummary p).rows) :
    ∃ q ∈ p.rows, getCell q "OrderLineId" = getCell rr "OrderLineId" := by
  unfold packsSummary at h
  simp only [List.mem_map] at h
  obtain ⟨k, hk, hrr⟩ := h
  have hk2 := List.mem_dedup.mp hk
  simp only [List.mem_map] at hk2
  obtain ⟨q, hq, hkey⟩ := hk2
  refine ⟨q, hq, ?_⟩
  rw [← hrr]
  simp [getCell_cons, hkey]

/-- A successful `castStep` preserves every table's column list (the
shipping-methods list goes through the rename) and leaves packs untouched. -/
theorem castStep_cols {raw raw1 : RawTables} (h : castStep raw = .ok raw1) :
    raw1.orders.cols = raw.orders.cols ∧
    raw1.order_lines.cols = raw.order_lines.cols ∧
    raw1.customers.cols = raw.customers.cols ∧
    raw1.products.cols = raw.products.cols ∧
    raw1.regions.cols = raw.regions.cols ∧
    raw1.shippers.cols = raw.shippers.cols ∧
    raw1.suppliers.cols = raw.suppliers.cols ∧
    raw1.shipping_methods.cols =
      raw.shipping_methods.cols.map
        (fun c => if c = "SMId" then "ShippingMethodRequested" else c) ∧
    raw1.packs = raw.packs := by
  unfold castStep at h
  simp only [bind, Except.bind] at h
  cases e1 : raw.orders.castCol "CustomerId" with
  | error e => simp only [e1] at h; exact Except.noConfusion h
  | ok co1 =>
  simp only [e1] at h
  cases e2 : co1.castCol "OrderId" with
  | error e => simp only [e2] at h; exact Except.noConfusion h
  | ok co2 =>
  simp only [e2] at h
  cases e3 : co2.castCol "SalesRepId" with
  | error e => simp only [e3] at h; exact Except.noConfusion h
  | ok co3 =>
  simp only [e3] at h
  cases e4 : co3.castCol "ShippingMethodRequested" with
  | error e => simp only [e4] at h; exact Except.noConfusion h
  | ok co4 =>
  simp only [e4] at h
  cases e5 : raw.order_lines.castCol "OrderId" with
  | error e => simp only [e5] at h; exact Except.noConfusion h
  | ok cl1 =>
  simp only [e5] at h
  cases e6 : cl1.castCol "OrderLineId" with
  | error e => simp only [e6] at h; exact Except.noConfusion h
  | ok cl2 =>
  simp only [e6] at h
  cases e7 : cl2.castCol "ProductId" with
  | error e => simp only [e7] at h; exact Except.noConfusion h
  | ok cl3 =>
  simp only [e7] at h
  cases e8 : cl3.castCol "ShipperId" with
  | error e => simp only [e8] at h; exact Except.noConfusion h
  | ok cl4 =>
  simp only [e8] at h
  cases e9 : raw.customers.castCol "CustomerId" with
  | error e => simp only [e9] at h; exact Except.noConfusion h
  | ok cc1 =>
  simp only [e9] at h
  cases e10 : cc1.castCol "RegionId" with
  | error e => simp only [e10] at h; exact Except.noConfusion h
  | ok cc2 =>
  simp only [e10] at h
  cases e11 : raw.products.castCol "ProductId" with
  | error e => simp only [e11] at h; exact Except.noConfusion h
  | ok cp1 =>
  simp only [e11] at h
  cases e12 : cp1.castCol "SupplierId" with
  | error e => simp only [e12] at h; exact Except.noConfusion h
  | ok cp2 =>
  simp only [e12] at h
  cases e13 : raw.regions.castCol "RegionId" with
  | error e => simp only [e13] at h; exact Except.noConfusion h
  | ok cr1 =>
  simp only [e13] at h
  cases e14 : raw.shippers.castCol "ShipperId" with
  | error e => simp only [e14] at h; exact Except.noConfusion h
  | ok cs1 =>
  simp only [e14] at h
  cases e15 : raw.suppliers.castCol "SupplierId" with
  | error e => simp only [e15] at h; exact Except.noConfusion h
  | ok cu1 =>
  simp only [e15] at h
  cases e16 : (raw.shipping_methods.renameCol "SMId" "ShippingMethodRequested").castCol "ShippingMethodRequested" with
  | error e => simp only [e16] at h; exact Except.noConfusion h
  | ok cm1 =>
  simp only [e16] at h
  cases h
  refine ⟨?_, ?_, ?_, ?_, ?_, ?_, ?_, ?_, rfl⟩
  · exact (castCol_cols e4).trans ((castCol_cols e3).trans ((castCol_cols e2).trans (castCol_cols e1)))
  · exact (castCol_cols e8).trans ((castCol_cols e7).trans ((castCol_cols e6).trans (castCol_cols e5)))
  · exact (castCol_cols e10).trans (castCol_cols e9)
  · exact (castCol_cols e12).trans (castCol_cols e11)
  · exact castCol_cols e13
  · exact castCol_cols e14
  · exact castCol_cols e15
  · exact (castCol_cols e16).trans rfl

/-- The column list a successful `joinStep` produces. -/
theorem joinStep_cols {raw1 : RawTables} {df : DataFrame} (h : joinStep raw1 = .ok df) :
    df.cols = raw1.orders.cols
      ++ raw1.order_lines.cols.filter (fun c => c ≠ "OrderId")
      ++ raw1.customers.cols.filter (fun c => c ≠ "CustomerId")
      ++ raw1.products.cols.filter (fun c => c ≠ "ProductId")
      ++ raw1.regions.cols.filter (fun c => c ≠ "RegionId")
      ++ raw1.shippers.cols.filter (fun c => c ≠ "ShipperId")
      ++ raw1.suppliers.cols.filter (fun c => c ≠ "SupplierId")
      ++ raw1.shipping_methods.cols.filter (fun c => c ≠ "ShippingMethodRequested") := by
  unfold joinStep at h
  simp only [bind, Except.bind] at h
  cases e1 : raw1.orders.merge raw1.order_lines "OrderId" false with
  | error e => simp only [e1] at h; exact Except.noConfusion h
  | ok m1 =>
  simp only [e1] at h
  cases e2 : m1.merge raw1.customers "CustomerId" true with
  | error e => simp only [e2] at h; exact Except.noConfusion h
  | ok m2 =>
  simp only [e2] at h
  cases e3 : m2.merge raw1.products "ProductId" true with
  | error e => simp only [e3] at h; exact Except.noConfusion h
  | ok m3 =>
  simp only [e3] at h
  cases e4 : m3.merge raw1.regions "RegionId" true with
  | error e => simp only [e4] at h; exact Except.noConfusion h
  | ok m4 =>
  simp only [e4] at h
  cases e5 : m4.merge raw1.shippers "ShipperId" true with
  | error e => simp only [e5] at h; exact Except.noConfusion h
  | ok m5 =>
  simp only [e5] at h
  cases e6 : m5.merge raw1.suppliers "SupplierId" true with
  | error e => simp only [e6] at h; exact Except.noConfusion h
  | ok m6 =>
  simp only [e6] at h
  rw [merge_cols h, merge_cols e6, merge_cols e5, merge_cols e4, merge_cols e3,
    merge_cols e2, merge_cols e1]

/-- The two shapes a successful `packStep` takes: skipped wholesale for an
empty packs frame, or cast + key copy + summary join + `fillna(0)`. -/
theorem packStep_ok_elim {packs df p2 df2 : DataFrame}
    (h : packStep packs df = .ok (p2, df2)) :
    (packs.isEmptyDF = true ∧ p2 = packs ∧ df2 = df) ∨
    (∃ pc dfm, packs.castCol "PickedForOrderLine" = .ok pc ∧
      p2 = pc.assign "OrderLineId" (fun r => getCell r "PickedForOrderLine") ∧
      df.merge (packsSummary p2) "OrderLineId" true = .ok dfm ∧
      df2 = (dfm.assign "WeightLb" (fun r => denull (getCell r "WeightLb"))).assign
        "ItemCount" (fun r => denull (getCell r "ItemCount"))) := by
  unfold packStep at h
  split at h
  · next hemp =>
      simp only [Except.ok.injEq, Prod.mk.injEq] at h
      exact Or.inl ⟨hemp, h.1.symm, h.2.symm⟩
  · next hemp =>
      simp only [bind, Except.bind] at h
      cases e1 : packs.castCol "PickedForOrderLine" with
      | error e => simp only [e1] at h; exact Except.noConfusion h
      | ok pc =>
      simp only [e1] at h
      cases e2 : df.merge
          (packsSummary (pc.assign "OrderLineId" (fun r => getCell r "PickedForOrderLine")))
          "OrderLineId" true with
      | error e => simp only [e2] at h; exact Except.noConfusion h
      | ok dfm =>
      simp only [e2, Except.ok.injEq, Prod.mk.injEq] at h
      exact Or.inr ⟨pc, dfm, rfl, h.1.symm, by rw [← h.1]; exact e2, h.2.symm⟩

/-! ## C5 — rows without a matching pack get WeightLb = ItemCount = 0 -/

/-- C5: on any fetcher-shaped input, every prepared row whose OrderLineId
matches no row of the (post-preparation) packs table has numeric zero — not
null — WeightLb and ItemCount. -/
theorem no_pack_match_zeroed (raw : RawTables) (p : RawTables × DataFrame)
    (hs : SchemaOK raw) (h : prepare_full_data raw = .ok p) (r : Row) (hr : r ∈ p.2.rows)
    (hnp : ∀ q ∈ p.1.packs.rows, getCell q "OrderLineId" ≠ getCell r "OrderLineId") :
    getCell r "WeightLb" = .num 0 ∧ getCell r "ItemCount" = .num 0 := by
  obtain ⟨raw1, df, p2, df2, h1, h2, h3, h4, rfl⟩ := prepare_ok_elim h
  obtain ⟨r0, hr0, hc⟩ := finalize_cells hr
  obtain ⟨hOL, hUoB, hW, hI, hrest⟩ := hc
  obtain ⟨r00, hr00, hOL0, _, _, _, _, _, _, _, _, hW0, hI0⟩ := coerceNums_cells hr0
  rcases packStep_ok_elim h3 with ⟨hemp, hp2, hdf2⟩ | ⟨pc, dfm, hcast, hp2, hm, hdf2⟩
  · exfalso
    have hWcol : df2.hasCol "WeightLb" = true := by
      unfold checkCols at h4
      split at h4
      · next hall => exact (List.all_eq_true.mp hall) "WeightLb" (by simp [numcols])
      · exact Except.noConfusion h4
    rw [hdf2] at hWcol
    obtain ⟨q1, q2, q3, q4, q5, q6, q7, q8, q9⟩ := castStep_cols h1
    have hcols := joinStep_cols h2
    rw [q1, q2, q3, q4, q5, q6, q7, q8] at hcols
    obtain ⟨s1, s2, s3, s4, s5, s6, s7, s8, s9⟩ := hs
    rw [s1, s2, s3, s4, s5, s6, s7, s8] at hcols
    simp only [DataFrame.hasCol] at hWcol
    rw [hcols] at hWcol
    exact absurd hWcol (by decide)
  · rw [hdf2] at hr00
    obtain ⟨ra, hra, hr00eq⟩ := mem_assign_rows hr00
    obtain ⟨rm, hrm, hraeq⟩ := mem_assign_rows hra
    have hcs : (packsSummary p2).cols.filter (fun c => c ≠ "OrderLineId") =
        ["WeightLb", "ItemCount", "DeliveryDate"] := rfl
    have hOLrm : getCell r00 "OrderLineId" = getCell rm "OrderLineId" := by
      rw [hr00eq, hraeq, getCell_set_ne _ _ _ _ (by decide),
        getCell_set_ne _ _ _ _ (by decide)]
    rcases mem_merge_rows hm hrm with ⟨lr, hlr, ⟨rr, hrr, hkey, hrmeq⟩ | ⟨hnomatch, hrmeq⟩⟩
    · exfalso
      obtain ⟨q, hq, hqk⟩ := packsSummary_row_key hrr
      apply hnp q hq
      rw [hqk, hkey, hOL, hOL0, hOLrm, hrmeq, hcs]
      exact (getCell_foldl_set_ne _ _ _ _ (by decide)).symm
    · have hWnull : getCell rm "WeightLb" = Value.null := by
        rw [hrmeq, hcs]
        simp only [List.foldl_cons, List.foldl_nil]
        rw [getCell_set_ne _ _ _ _ (by decide), getCell_set_ne _ _ _ _ (by decide),
          getCell_set_self]
      have hInull : getCell rm "ItemCount" = Value.null := by
        rw [hrmeq, hcs]
        simp only [List.foldl_cons, List.foldl_nil]
        rw [getCell_set_ne _ _ _ _ (by decide), getCell_set_self]
      constructor
      · rw [hW, hW0, hr00eq, getCell_set_ne _ _ _ _ (by decide), hraeq, getCell_set_self,
          hWnull]
        rfl
      · rw [hI, hI0, hr00eq, getCell_set_self, hraeq, getCell_set_ne _ _ _ _ (by decide),
          hInull]
        rfl

theorem no_pack_match_zeroed_witness :
    getCell wRow2 "WeightLb" = .num 0 ∧ getCell wRow2 "ItemCount" = .num 0 :=
  no_pack_match_zeroed wRaw wPrep (by decide) (by rfl) wRow2
    (getD_mem _ _ _ (by decide)) (by decide)

/-! ## C3 — the spec's §8 scenario crashes instead of producing a row

The scenario ships an empty packs table, so step 3 of `prepare_full_data` is
skipped and no `WeightLb`/`ItemCount`/`DeliveryDate` columns are ever created;
step 4's `df[numcols]` then raises `KeyError` and the pipeline re-raises — it
never returns the row the scenario expects. -/

/-- C3: on the spec's concrete scenario input the pipeline raises a
`KeyError` on the two pack-derived columns rather than returning a prepared
row. -/
theorem spec_scenario_raises_keyerror :
    prepare_full_data c3raw = .error "KeyError: WeightLb, ItemCount" := by rfl

/-! ## C4 — a failing table is replaced by a *bare* empty frame -/

theorem lookup_map_self {β : Type} (f : String → β) :
    ∀ (names : List String) (n : String), n ∈ names →
      List.lookup n (names.map fun m => (m, f m)) = some (f n)
  | m :: t, n, h => by
      by_cases he : n = m
      · subst he
        simp [List.lookup]
      · have hb : (n == m) = false := by simp [he]
        have ht : n ∈ t := by
          rcases List.mem_cons.mp h with h1 | h1
          · exact absurd h1 he
          · exact h1
        simpa [List.lookup, hb] using lookup_map_self f t n ht

/-- C4 (amended): a table whose query fails is replaced by the wholly empty
`pd.DataFrame()` — zero rows *and zero columns* — its failure is logged, and
every other table's successful result is still returned. -/
theorem fetch_failure_isolated (oracle : DbOracle) (n : String) (e : String)
    (hn : n ∈ tableNames) (he : oracle n = .error e) :
    List.lookup n (fetch_raw_tables oracle).2 = some emptyDF ∧
    ("Error fetching '" ++ n ++ "': " ++ e) ∈ (fetch_raw_tables oracle).1 ∧
    (∀ n' df, n' ∈ tableNames → oracle n' = .ok df →
      List.lookup n' (fetch_raw_tables oracle).2 = some df) := by
  refine ⟨?_, ?_, ?_⟩
  · rw [fetch_raw_tables]
    rw [lookup_map_self (fetchOne oracle) tableNames n hn]
    simp [fetchOne, he]
  · rw [fetch_raw_tables]
    exact List.mem_flatMap.mpr ⟨n, hn, by simp [fetchLog, he]⟩
  · intro n' df hn' hok
    rw [fetch_raw_tables]
    rw [lookup_map_self (fetchOne oracle) tableNames n' hn']
    simp [fetchOne, hok]

theorem fetch_failure_isolated_witness :
    List.lookup "orders" (fetch_raw_tables o4).2 = some emptyDF ∧
    ("Error fetching 'orders': connection reset") ∈ (fetch_raw_tables o4).1 ∧
    (∀ n' df, n' ∈ tableNames → o4 n' = .ok df →
      List.lookup n' (fetch_raw_tables o4).2 = some df) :=
  fetch_failure_isolated o4 "orders" "connection reset" (by decide) (by rfl)

/-- C4 counterexample: with the orders query failing, the returned orders
entry is the bare empty frame — it does *not* carry the orders query's
defined columns, contradicting the claim's "zero rows but its defined
columns". -/
theorem failed_table_lacks_defined_columns :
    List.lookup "orders" (fetch_raw_tables o4).2 = some emptyDF ∧
    emptyDF.cols = [] ∧ tableCols "orders" ≠ [] ∧
    (List.lookup "orders" (fetch_raw_tables o4).2).map DataFrame.cols ≠
      some (tableCols "orders") := by
  refine ⟨by rfl, rfl, by decide, by decide⟩

/-! ## C9 — `prepare_full_data` mutates the cached fetch result -/

/-- C9: after `load_data` runs once, the `lru_cache` entry for the same
(start, end) key still points at the same heap object (the second fetch is a
cache hit returning address 0 with the state unchanged), but that object now
holds the *mutated* tables: `CustomerId` overwritten with its string cast,
`shipping_methods` keyed by the renamed `ShippingMethodRequested` column, and
an `OrderLineId` column added to packs — no longer the pristine fetch
result. -/
theorem cache_entry_mutated_by_prepare :
    (fetchCached o9 ("2020-01-01", "2023-12-31")
        (load_data o9 ("2020-01-01", "2023-12-31") initState).2) =
      (0, (load_data o9 ("2020-01-01", "2023-12-31") initState).2) ∧
    c9Heap ≠ some (fetchTables o9) ∧
    c9Heap.map (fun t => t.shipping_methods.cols) =
      some ["ShippingMethodRequested", "ShippingMethodName"] ∧
    c9Heap.map (fun t => t.packs.cols) =
      some ["PickedForOrderLine", "WeightLb", "ItemCount", "DeliveryDate", "OrderLineId"] ∧
    c9Heap.map (fun t => getCell (t.orders.rows.headD []) "CustomerId") =
      some (.str "7") ∧
    getCell ((fetchTables o9).orders.rows.headD []) "CustomerId" = .num 7 := by
  refine ⟨by rfl, by decide, by rfl, by rfl, by rfl, by rfl⟩

/-! ## Quantile facts for the RFM claims -/

theorem getD_eq_get {α : Type} (l : List α) (i : Nat) (d : α) (h : i < l.length) :
    l.getD i d = l.get ⟨i, h⟩ := by
  simp [List.getD_eq_getElem?_getD, List.getElem?_eq_getElem h]

/-- In a `≤`-sorted rational list every member is at most the last entry. -/
theorem sorted_le_getD_last {s : List ℚ} (hs : s.Sorted (· ≤ ·)) {v : ℚ} (hv : v ∈ s) :
    v ≤ s.getD (s.length - 1) 0 := by
  obtain ⟨i, rfl⟩ := List.mem_iff_get.mp hv
  have hpos : 0 < s.length := Nat.lt_of_le_of_lt (Nat.zero_le _) i.2
  have hlast : s.length - 1 < s.length := Nat.sub_lt hpos Nat.one_pos
  rw [getD_eq_get _ _ _ hlast]
  exact hs.rel_get_of_le (Nat.le_sub_one_of_lt i.2)

/-- The interpolated percentile of a sorted nonempty list never exceeds the
list's last (largest) entry, for probabilities in [0, 1]. -/
theorem quantileSorted_le_last {s : List ℚ} (hs : s.Sorted (· ≤ ·)) (hne : s ≠ [])
    {q : ℚ} (h0 : 0 ≤ q) (h1 : q ≤ 1) :
    quantileSorted s q ≤ s.getD (s.length - 1) 0 := by
  have hpos : 0 < s.length := List.length_pos.mpr hne
  set L := s.getD (s.length - 1) 0 with hL
  set hq : ℚ := q * ((s.length : ℚ) - 1) with hh
  have hn1 : (0 : ℚ) ≤ (s.length : ℚ) - 1 := by
    have : (1 : ℚ) ≤ (s.length : ℚ) := by exact_mod_cast hpos
    linarith
  have hq0 : 0 ≤ hq := mul_nonneg h0 hn1
  have hqle : hq ≤ (s.length : ℚ) - 1 := by
    calc hq ≤ 1 * ((s.length : ℚ) - 1) := by
          exact mul_le_mul_of_nonneg_right h1 hn1
      _ = (s.length : ℚ) - 1 := one_mul _
  have hfl0 : 0 ≤ Int.floor hq := Int.le_floor.mpr (by exact_mod_cast hq0)
  have hilt : (Int.floor hq).toNat < s.length := by
    have h2 : Int.floor hq ≤ (s.length : ℤ) - 1 := by
      have h3 : hq ≤ (((s.length : ℤ) - 1 : ℤ) : ℚ) := by push_cast; exact hqle
      simpa using Int.floor_mono h3
    omega
  have ha : s.getD (Int.floor hq).toNat 0 ≤ L := by
    rw [getD_eq_get _ _ _ hilt]
    exact sorted_le_getD_last hs (List.get_mem s _ hilt)
  have hb : ((s[(Int.floor hq).toNat + 1]?).getD (s.getD (Int.floor hq).toNat 0)) ≤ L := by
    cases hlt : s[(Int.floor hq).toNat + 1]? with
    | none => simpa using ha
    | some v =>
        have hv : v ∈ s := by
          obtain ⟨hw, hvv⟩ := List.getElem?_eq_some_iff.mp hlt
          exact hvv ▸ List.getElem_mem hw
        simp only [Option.getD_some]
        exact sorted_le_getD_last hs hv
  have hf0 : 0 ≤ hq - (Int.floor hq : ℚ) := sub_nonneg.mpr (Int.floor_le hq)
  have hf1 : hq - (Int.floor hq : ℚ) ≤ 1 := by
    have := Int.lt_floor_add_one hq
    linarith
  show s.getD (Int.floor hq).toNat 0 +
      (hq - (Int.floor hq : ℚ)) *
        (((s[(Int.floor hq).toNat + 1]?).getD (s.getD (Int.floor hq).toNat 0)) -
          s.getD (Int.floor hq).toNat 0) ≤ L
  nlinarith [mul_nonneg hf0 (sub_nonneg.mpr hb),
    mul_nonneg (sub_nonneg.mpr hf1) (sub_nonneg.mpr ha)]

/-- At probability 1 the interpolated percentile is exactly the last entry. -/
theorem quantileSorted_one {s : List ℚ} (hne : s ≠ []) :
    quantileSorted s 1 = s.getD (s.length - 1) 0 := by
  have hpos : 0 < s.length := List.length_pos.mpr hne
  have hcast : (1 : ℚ) * ((s.length : ℚ) - 1) = (((s.length : ℤ) - 1 : ℤ) : ℚ) := by
    push_cast
    ring
  have hfloor : Int.floor ((1 : ℚ) * ((s.length : ℚ) - 1)) = (s.length : ℤ) - 1 := by
    rw [hcast, Int.floor_intCast]
  have htn : ((s.length : ℤ) - 1).toNat = s.length - 1 := by omega
  show s.getD (Int.floor ((1 : ℚ) * ((s.length : ℚ) - 1))).toNat 0 +
      ((1 : ℚ) * ((s.length : ℚ) - 1) -
        ((Int.floor ((1 : ℚ) * ((s.length : ℚ) - 1)) : ℤ) : ℚ)) *
        (((s[(Int.floor ((1 : ℚ) * ((s.length : ℚ) - 1))).toNat + 1]?).getD
            (s.getD (Int.floor ((1 : ℚ) * ((s.length : ℚ) - 1))).toNat 0)) -
          s.getD (Int.floor ((1 : ℚ) * ((s.length : ℚ) - 1))).toNat 0) =
      s.getD (s.length - 1) 0
  rw [hfloor, htn, hcast]
  ring

/-- Every value is at most the sorted list's last entry. -/
theorem le_sorted_last_of_mem {vals : List ℚ} {v : ℚ} (hv : v ∈ vals) :
    v ≤ (List.insertionSort (· ≤ ·) vals).getD (vals.length - 1) 0 := by
  have hlen := (List.perm_insertionSort (· ≤ ·) vals).length_eq
  have h := sorted_le_getD_last (List.sorted_insertionSort (· ≤ ·) vals)
    ((List.mem_insertionSort (· ≤ ·)).mpr hv)
  rw [hlen] at h
  exact h

/-- The sorted list's last entry is one of the values. -/
theorem sorted_last_mem {vals : List ℚ} (hne : vals ≠ []) :
    (List.insertionSort (· ≤ ·) vals).getD (vals.length - 1) 0 ∈ vals := by
  have hlen := (List.perm_insertionSort (· ≤ ·) vals).length_eq
  have hpos : 0 < vals.length := List.length_pos.mpr hne
  have hlt : vals.length - 1 < (List.insertionSort (· ≤ ·) vals).length := by omega
  rw [getD_eq_get _ _ _ hlt]
  exact (List.mem_insertionSort (· ≤ ·)).mp (List.get_mem _ _ _)

/-- The topmost `qcut` edge is the maximum of the values. -/
theorem qcutEdges_top {vals : List ℚ} (hne : vals ≠ []) :
    (qcutEdges vals).getD 4 0 =
      (List.insertionSort (· ≤ ·) vals).getD (vals.length - 1) 0 := by
  have hlen := (List.perm_insertionSort (· ≤ ·) vals).length_eq
  have hsne : List.insertionSort (· ≤ ·) vals ≠ [] := by
    intro hcon
    apply hne
    rw [← List.length_eq_zero, ← hlen, hcon, List.length_nil]
  show quantileSorted (List.insertionSort (· ≤ ·) vals) 1 = _
  rw [quantileSorted_one hsne, hlen]

/-- With pairwise-distinct quartile edges, a value that dominates the whole
list falls in the top bin and so receives the last label. -/
theorem binLabel_max {vals : List ℚ} {labels : List Nat} {vm : ℚ} (hm : vm ∈ vals)
    (hmax : ∀ v ∈ vals, v ≤ vm) (hnd : (qcutEdges vals).Nodup) :
    binLabel (qcutEdges vals) labels vm = labels.getD 3 0 := by
  have hne : vals ≠ [] := by rintro rfl; cases hm
  have hlen := (List.perm_insertionSort (· ≤ ·) vals).length_eq
  have hsne : List.insertionSort (· ≤ ·) vals ≠ [] := by
    intro hcon
    apply hne
    rw [← List.length_eq_zero, ← hlen, hcon, List.length_nil]
  have hsorted := List.sorted_insertionSort (· ≤ ·) vals
  have hvmL : vm = (List.insertionSort (· ≤ ·) vals).getD (vals.length - 1) 0 :=
    le_antisymm (le_sorted_last_of_mem hm) (hmax _ (sorted_last_mem hne))
  have hq : ∀ q : ℚ, 0 ≤ q → q ≤ 1 →
      quantileSorted (List.insertionSort (· ≤ ·) vals) q ≤ vm := by
    intro q h0 h1
    have h := quantileSorted_le_last hsorted hsne h0 h1
    rw [hlen] at h
    exact hvmL ▸ h
  have he1 : (qcutEdges vals).getD 1 0 ≤ vm := hq (1/4) (by norm_num) (by norm_num)
  have he2 : (qcutEdges vals).getD 2 0 ≤ vm := hq (1/2) (by norm_num) (by norm_num)
  have he3 : (qcutEdges vals).getD 3 0 ≤ vm := hq (3/4) (by norm_num) (by norm_num)
  have he4 : (qcutEdges vals).getD 4 0 = vm := by rw [qcutEdges_top hne, ← hvmL]
  have hd : (qcutEdges vals).getD 1 0 ≠ vm ∧ (qcutEdges vals).getD 2 0 ≠ vm ∧
      (qcutEdges vals).getD 3 0 ≠ vm := by
    rw [← he4]
    revert hnd
    show (qcutEdges vals).Nodup → _
    unfold qcutEdges
    intro hnd
    simp only [List.nodup_cons, List.mem_cons, List.not_mem_nil, or_false,
      List.mem_singleton, not_or] at hnd
    exact ⟨hnd.2.1.2.2, hnd.2.2.1.2, hnd.2.2.2.1⟩
  rw [binLabel, if_neg (not_le.mpr (lt_of_le_of_ne he1 hd.1)),
    if_neg (not_le.mpr (lt_of_le_of_ne he2 hd.2.1)),
    if_neg (not_le.mpr (lt_of_le_of_ne he3 hd.2.2))]

theorem binLabel_mem (edges : List ℚ) (labels : List Nat) (v : ℚ) :
    binLabel edges labels v = labels.getD 0 0 ∨ binLabel edges labels v = labels.getD 1 0 ∨
    binLabel edges labels v = labels.getD 2 0 ∨ binLabel edges labels v = labels.getD 3 0 := by
  unfold binLabel
  split_ifs <;> simp

theorem getD_map {α β : Type} (f : α → β) (l : List α) (i : Nat) (d : β) (d' : α)
    (h : i < l.length) : (l.map f).getD i d = f (l.getD i d') := by
  have h2 : i < (l.map f).length := by simpa using h
  rw [getD_eq_get _ _ _ h2, getD_eq_get _ _ _ h]
  simp

/-- A successful `qcut` certifies distinct edges and scores positionally. -/
theorem qcut_ok_elim {vals : List ℚ} {labels : List Nat} {out : List Nat}
    (h : qcut vals labels = .ok out) :
    (qcutEdges vals).Nodup ∧ out = vals.map (binLabel (qcutEdges vals) labels) := by
  unfold qcut at h
  split at h
  · next hnd => cases h; exact ⟨hnd, rfl⟩
  · exact Except.noConfusion h

/-- A successful `compute_rfm` factors through the three quartile cuts. -/
theorem compute_rfm_ok_elim {df : DataFrame} {rows : List RfmRow}
    (h : compute_rfm df = .ok rows) :
    ∃ rs fs ms,
      qcut ((rfmAgg df).map (fun a => a.recency)) [4, 3, 2, 1] = .ok rs ∧
      qcut ((rfmAgg df).map (fun a => a.frequency)) [1, 2, 3, 4] = .ok fs ∧
      qcut ((rfmAgg df).map (fun a => a.monetary)) [1, 2, 3, 4] = .ok ms ∧
      rows = (List.range (rfmAgg df).length).map (fun i =>
        let a := (rfmAgg df).getD i default
        let r := rs.getD i 0
        let f := fs.getD i 0
        let m := ms.getD i 0
        { name := a.name, recency := a.recency, frequency := a.frequency,
          monetary := a.monetary, rScore := r, fScore := f, mScore := m,
          segment := toString r ++ toString f ++ toString m }) := by
  unfold compute_rfm at h
  simp only [bind, Except.bind] at h
  cases e1 : qcut ((rfmAgg df).map (fun a => a.recency)) [4, 3, 2, 1] with
  | error e => simp only [e1] at h; exact Except.noConfusion h
  | ok rs =>
  simp only [e1] at h
  cases e2 : qcut ((rfmAgg df).map (fun a => a.frequency)) [1, 2, 3, 4] with
  | error e => simp only [e2] at h; exact Except.noConfusion h
  | ok fs =>
  simp only [e2] at h
  cases e3 : qcut ((rfmAgg df).map (fun a => a.monetary)) [1, 2, 3, 4] with
  | error e => simp only [e3] at h; exact Except.noConfusion h
  | ok ms =>
  simp only [e3, Except.ok.injEq] at h
  exact ⟨rs, fs, ms, rfl, rfl, rfl, h.symm⟩

/-! ## C8 — RFM quartile scoring -/

/-- C8: whenever `compute_rfm` succeeds, every output row's RFM segment is
the concatenation of its three digit scores, each score is one of 1–4 (the
four quartile-bin labels), a customer whose Recency dominates all others
scores R = 1, and a customer whose Monetary dominates all others scores
M = 4. -/
theorem rfm_quartile_scoring (df : DataFrame) (rows : List RfmRow)
    (h : compute_rfm df = .ok rows) :
    (∀ x ∈ rows, x.segment = toString x.rScore ++ toString x.fScore ++ toString x.mScore) ∧
    (∀ x ∈ rows,
      (x.rScore = 1 ∨ x.rScore = 2 ∨ x.rScore = 3 ∨ x.rScore = 4) ∧
      (x.fScore = 1 ∨ x.fScore = 2 ∨ x.fScore = 3 ∨ x.fScore = 4) ∧
      (x.mScore = 1 ∨ x.mScore = 2 ∨ x.mScore = 3 ∨ x.mScore = 4)) ∧
    (∀ x ∈ rows, (∀ y ∈ rows, y.recency ≤ x.recency) → x.rScore = 1) ∧
    (∀ x ∈ rows, (∀ y ∈ rows, y.monetary ≤ x.monetary) → x.mScore = 4) := by
  obtain ⟨rs, fs, ms, hrs, hfs, hms, hrows⟩ := compute_rfm_ok_elim h
  obtain ⟨hndR, hrsEq⟩ := qcut_ok_elim hrs
  obtain ⟨hndF, hfsEq⟩ := qcut_ok_elim hfs
  obtain ⟨hndM, hmsEq⟩ := qcut_ok_elim hms
  subst hrsEq
  subst hfsEq
  subst hmsEq
  subst hrows
  have hscR : ∀ i, i < (rfmAgg df).length →
      (List.map (binLabel (qcutEdges ((rfmAgg df).map (fun a => a.recency))) [4, 3, 2, 1])
        ((rfmAgg df).map (fun a => a.recency))).getD i 0 =
      binLabel (qcutEdges ((rfmAgg df).map (fun a => a.recency))) [4, 3, 2, 1]
        (((rfmAgg df).getD i default).recency) := by
    intro i hi
    have hiR : i < ((rfmAgg df).map (fun a => a.recency)).length := by simpa using hi
    rw [getD_map _ _ _ _ 0 hiR, getD_map _ _ _ _ default hi]
  have hscF : ∀ i, i < (rfmAgg df).length →
      (List.map (binLabel (qcutEdges ((rfmAgg df).map (fun a => a.frequency))) [1, 2, 3, 4])
        ((rfmAgg df).map (fun a => a.frequency))).getD i 0 =
      binLabel (qcutEdges ((rfmAgg df).map (fun a => a.frequency))) [1, 2, 3, 4]
        (((rfmAgg df).getD i default).frequency) := by
    intro i hi
    have hiF : i < ((rfmAgg df).map (fun a => a.frequency)).length := by simpa using hi
    rw [getD_map _ _ _ _ 0 hiF, getD_map _ _ _ _ default hi]
  have hscM : ∀ i, i < (rfmAgg df).length →
      (List.map (binLabel (qcutEdges ((rfmAgg df).map (fun a => a.monetary))) [1, 2, 3, 4])
        ((rfmAgg df).map (fun a => a.monetary))).getD i 0 =
      binLabel (qcutEdges ((rfmAgg df).map (fun a => a.monetary))) [1, 2, 3, 4]
        (((rfmAgg df).getD i default).monetary) := by
    intro i hi
    have hiM : i < ((rfmAgg df).map (fun a => a.monetary)).length := by simpa using hi
    rw [getD_map _ _ _ _ 0 hiM, getD_map _ _ _ _ default hi]
  refine ⟨?_, ?_, ?_, ?_⟩
  · rintro x hx
    simp only [List.mem_map, List.mem_range] at hx
    obtain ⟨i, hi, rfl⟩ := hx
    rfl
  · rintro x hx
    simp only [List.mem_map, List.mem_range] at hx
    obtain ⟨i, hi, rfl⟩ := hx
    refine ⟨?_, ?_, ?_⟩
    · show (List.map (binLabel (qcutEdges ((rfmAgg df).map (fun a => a.recency))) [4, 3, 2, 1])
        ((rfmAgg df).map (fun a => a.recency))).getD i 0 = 1 ∨ _
      rw [hscR i hi]
      rcases binLabel_mem (qcutEdges ((rfmAgg df).map (fun a => a.recency))) [4, 3, 2, 1]
        (((rfmAgg df).getD i default).recency) with hb | hb | hb | hb <;> rw [hb] <;> simp
    · show (List.map (binLabel (qcutEdges ((rfmAgg df).map (fun a => a.frequency))) [1, 2, 3, 4])
        ((rfmAgg df).map (fun a => a.frequency))).getD i 0 = 1 ∨ _
      rw [hscF i hi]
      rcases binLabel_mem (qcutEdges ((rfmAgg df).map (fun a => a.frequency))) [1, 2, 3, 4]
        (((rfmAgg df).getD i default).frequency) with hb | hb | hb | hb <;> rw [hb] <;> simp
    · show (List.map (binLabel (qcutEdges ((rfmAgg df).map (fun a => a.monetary))) [1, 2, 3, 4])
        ((rfmAgg df).map (fun a => a.monetary))).getD i 0 = 1 ∨ _
      rw [hscM i hi]
      rcases binLabel_mem (qcutEdges ((rfmAgg df).map (fun a => a.monetary))) [1, 2, 3, 4]
        (((rfmAgg df).getD i default).monetary) with hb | hb | hb | hb <;> rw [hb] <;> simp
  · rintro x hx hmax
    simp only [List.mem_map, List.mem_range] at hx
    obtain ⟨i, hi, rfl⟩ := hx
    have hiR : i < ((rfmAgg df).map (fun a => a.recency)).length := by simpa using hi
    have hdom : ∀ v ∈ (rfmAgg df).map (fun a => a.recency),
        v ≤ ((rfmAgg df).getD i default).recency := by
      intro v hv
      simp only [List.mem_map] at hv
      obtain ⟨a, ha, rfl⟩ := hv
      obtain ⟨j, hj⟩ := List.mem_iff_get.mp ha
      have hy := hmax _ (List.mem_map.mpr ⟨j.1, List.mem_range.mpr j.2, rfl⟩)
      have hy2 : ((rfmAgg df).getD j.1 default).recency ≤
          ((rfmAgg df).getD i default).recency := hy
      rwa [getD_eq_get _ _ _ j.2, hj] at hy2
    have hmem : ((rfmAgg df).getD i default).recency ∈
        (rfmAgg df).map (fun a => a.recency) := by
      have hg := getD_mem ((rfmAgg df).map (fun a => a.recency)) i 0 hiR
      rwa [getD_map _ _ _ _ default hi] at hg
    show (List.map (binLabel (qcutEdges ((rfmAgg df).map (fun a => a.recency))) [4, 3, 2, 1])
        ((rfmAgg df).map (fun a => a.recency))).getD i 0 = 1
    rw [hscR i hi, binLabel_max hmem hdom hndR]
    rfl
  · rintro x hx hmax
    simp only [List.mem_map, List.mem_range] at hx
    obtain ⟨i, hi, rfl⟩ := hx
    have hiM : i < ((rfmAgg df).map (fun a => a.monetary)).length := by simpa using hi
    have hdom : ∀ v ∈ (rfmAgg df).map (fun a => a.monetary),
        v ≤ ((rfmAgg df).getD i default).monetary := by
      intro v hv
      simp only [List.mem_map] at hv
      obtain ⟨a, ha, rfl⟩ := hv
      obtain ⟨j, hj⟩ := List.mem_iff_get.mp ha
      have hy := hmax _ (List.mem_map.mpr ⟨j.1, List.mem_range.mpr j.2, rfl⟩)
      have hy2 : ((rfmAgg df).getD j.1 default).monetary ≤
          ((rfmAgg df).getD i default).monetary := hy
      rwa [getD_eq_get _ _ _ j.2, hj] at hy2
    have hmem : ((rfmAgg df).getD i default).monetary ∈
        (rfmAgg df).map (fun a => a.monetary) := by
      have hg := getD_mem ((rfmAgg df).map (fun a => a.monetary)) i 0 hiM
      rwa [getD_map _ _ _ _ default hi] at hg
    show (List.map (binLabel (qcutEdges ((rfmAgg df).map (fun a => a.monetary))) [1, 2, 3, 4])
        ((rfmAgg df).map (fun a => a.monetary))).getD i 0 = 4
    rw [hscM i hi, binLabel_max hmem hdom hndM]
    rfl

theorem rfm_quartile_scoring_witness :
    (∀ x ∈ wRfm, x.segment = toString x.rScore ++ toString x.fScore ++ toString x.mScore) ∧
    (∀ x ∈ wRfm,
      (x.rScore = 1 ∨ x.rScore = 2 ∨ x.rScore = 3 ∨ x.rScore = 4) ∧
      (x.fScore = 1 ∨ x.fScore = 2 ∨ x.fScore = 3 ∨ x.fScore = 4) ∧
      (x.mScore = 1 ∨ x.mScore = 2 ∨ x.mScore = 3 ∨ x.mScore = 4)) ∧
    (∀ x ∈ wRfm, (∀ y ∈ wRfm, y.recency ≤ x.recency) → x.rScore = 1) ∧
    (∀ x ∈ wRfm, (∀ y ∈ wRfm, y.monetary ≤ x.monetary) → x.mScore = 4) :=
  rfm_quartile_scoring wRfmDf wRfm (by with_unfolding_all rfl)

/-! ## C10 — when RFM scoring raises instead of returning scores -/

/-- C10 (amended): `compute_rfm` raises whenever the quartile cut of any of
the three measures fails to produce four distinct bin edges. -/
theorem rfm_errors_on_duplicate_edges (df : DataFrame)
    (hdup : ¬(qcutEdges ((rfmAgg df).map (fun a => a.recency))).Nodup ∨
      ¬(qcutEdges ((rfmAgg df).map (fun a => a.frequency))).Nodup ∨
      ¬(qcutEdges ((rfmAgg df).map (fun a => a.monetary))).Nodup) :
    ∃ e, compute_rfm df = .error e := by
  unfold compute_rfm
  simp only [bind, Except.bind]
  rcases hdup with hd | hd | hd
  · exact ⟨"Bin edges must be unique", by simp [qcut, hd]⟩
  · cases e1 : qcut ((rfmAgg df).map (fun a => a.recency)) [4, 3, 2, 1] with
    | error e => exact ⟨e, by simp [e1]⟩
    | ok rs => exact ⟨"Bin edges must be unique", by simp [e1, qcut, hd]⟩
  · cases e1 : qcut ((rfmAgg df).map (fun a => a.recency)) [4, 3, 2, 1] with
    | error e => exact ⟨e, by simp [e1]⟩
    | ok rs =>
      cases e2 : qcut ((rfmAgg df).map (fun a => a.frequency)) [1, 2, 3, 4] with
      | error e => exact ⟨e, by simp [e1, e2]⟩
      | ok fs => exact ⟨"Bin edges must be unique", by simp [e1, e2, qcut, hd]⟩

theorem rfm_errors_on_duplicate_edges_witness :
    ∃ e, compute_rfm oneCustDf = .error e :=
  rfm_errors_on_duplicate_edges oneCustDf
    (Or.inl (of_decide_eq_true (by with_unfolding_all rfl)))

/-- The scored rows of the two-customer frame. -/
def c10rows : List RfmRow :=
  match compute_rfm c10df with
  | .ok r => r
  | .error _ => []

/-- C10 counterexample: with only two customers — fewer than four — whose
measure values are pairwise distinct, the interpolated quartile edges are
distinct and `compute_rfm` *succeeds*, so "fewer than four customers" does
not by itself make the scoring raise. -/
theorem rfm_ok_with_two_customers :
    compute_rfm c10df = .ok c10rows ∧ (rfmAgg c10df).length = 2 ∧ 2 < 4 :=
  ⟨by with_unfolding_all rfl, by with_unfolding_all rfl, by decide⟩
